import Mathlib

/-!
Verification of the brightstair travel-booking backend (src/server.js).

The JavaScript source is shallowly embedded: each handler and helper is
translated into an executable Lean definition, with request-time inputs
(current time, provider response, stored collections, credential checks)
passed explicitly as arguments.  Machine integers are modelled as Nat/Int;
JavaScript strings are modelled as Lean strings restricted to ASCII where
the code only ever sees ASCII (city names, IATA codes, ISO dates).
-/

/-! ### ASCII character and string helpers (JS toLowerCase/toUpperCase/trim) -/

/-- ASCII lower-casing of a single character, as JS toLowerCase acts on ASCII.
Non-ASCII characters are left unchanged (the source only compares ASCII city
text and codes). -/
def lowerChar (c : Char) : Char :=
  if 65 ≤ c.toNat ∧ c.toNat ≤ 90 then Char.ofNat (c.toNat + 32) else c

/-- ASCII upper-casing of a single character, as JS toUpperCase acts on ASCII. -/
def upperChar (c : Char) : Char :=
  if 97 ≤ c.toNat ∧ c.toNat ≤ 122 then Char.ofNat (c.toNat - 32) else c

/-- Model of JS String.prototype.toLowerCase on ASCII strings. -/
def jsToLowerStr (s : String) : String :=
  String.mk (s.toList.map lowerChar)

/-- Model of JS String.prototype.toUpperCase on ASCII strings. -/
def jsToUpperStr (s : String) : String :=
  String.mk (s.toList.map upperChar)

/-- Whitespace test for JS String.prototype.trim (common ASCII whitespace). -/
def isWsChar (c : Char) : Bool :=
  c == ' ' || c == '\t' || c == '\n' || c == '\r'

/-- Model of JS String.prototype.trim: strip leading and trailing whitespace. -/
def jsTrimStr (s : String) : String :=
  String.mk ((((s.toList.dropWhile isWsChar).reverse).dropWhile isWsChar).reverse)

/-- Test for a lowercase ASCII letter, the character class of the regex
/^[a-z]+$/ used by getIATACode. -/
def isLowerAlpha (c : Char) : Bool :=
  decide (97 ≤ c.toNat) && decide (c.toNat ≤ 122)

/-! ### City to IATA code mapping (src/server.js lines 24-80) -/

/-- The cityToIATA object literal from src/server.js, in source order. -/
def cityToIATA : List (String × String) :=
  [("lahore", "LHE"), ("karachi", "KHI"), ("islamabad", "ISB"),
   ("peshawar", "PEW"), ("quetta", "UET"), ("multan", "MUX"),
   ("faisalabad", "LYP"), ("sialkot", "SKT"), ("gwadar", "GWD"),
   ("rawalpindi", "ISB"),
   ("dubai", "DXB"), ("london", "LHR"), ("new york", "JFK"),
   ("toronto", "YYZ"), ("jeddah", "JED"), ("riyadh", "RUH"),
   ("doha", "DOH"), ("abu dhabi", "AUH"), ("istanbul", "IST"),
   ("bangkok", "BKK"), ("kuala lumpur", "KUL"), ("singapore", "SIN"),
   ("manchester", "MAN"), ("birmingham", "BHX"), ("paris", "CDG"),
   ("tokyo", "NRT"), ("beijing", "PEK"), ("sydney", "SYD"),
   ("melbourne", "MEL"), ("cairo", "CAI"), ("muscat", "MCT"),
   ("kuwait", "KWI"), ("bahrain", "BAH"), ("sharjah", "SHJ"),
   ("medina", "MED"), ("makkah", "JED"),
   ("delhi", "DEL"), ("mumbai", "BOM"), ("dhaka", "DAC")]

/-- The already-an-IATA-code test of getIATACode (src/server.js line 75):
length is exactly 3 and the regex /^[a-z]+$/ matches (all characters are
lowercase letters; on a length-3 string the nonempty requirement of + is
automatic). -/
def isAlpha3 (t : String) : Bool :=
  decide (t.length = 3) && t.toList.all isLowerAlpha

/-- getIATACode from src/server.js lines 70-80.  The argument is an Option to
model a possibly-undefined query parameter; the JS falsy test (!city) is true
for undefined and for the empty string. -/
def getIATACode (city : Option String) : Option String :=
  match city with
  | none => none
  | some c =>
    if c = "" then none
    else
      let cityLower := jsTrimStr (jsToLowerStr c)
      if isAlpha3 cityLower then
        some (jsToUpperStr cityLower)
      else
        cityToIATA.lookup cityLower


/-! ### Decimal digit rendering (JS number-to-string for Nat values) -/

/-- Digit-list worker, structurally recursive on a fuel bound so that it
reduces by evaluation; the fuel always exceeds the argument. -/
def natDigitsAux (fuel : Nat) (n : Nat) : List Char :=
  match fuel with
  | 0 => []
  | fuel + 1 =>
    if n < 10 then [Char.ofNat (48 + n)]
    else natDigitsAux fuel (n / 10) ++ [Char.ofNat (48 + n % 10)]

/-- The decimal digits of a natural number, most significant first, as JS
renders an integral Number. -/
def natDigits (n : Nat) : List Char :=
  natDigitsAux (n + 1) n

/-- Decimal rendering of a Nat, modelling JS template-literal interpolation
of an integral Number. -/
def natRepr (n : Nat) : String :=
  String.mk (natDigits n)

/-- Zero-pad to two decimal digits (ISO date/time components). -/
def pad2C (n : Nat) : List Char :=
  if n < 10 then '0' :: natDigits n else natDigits n

/-- Zero-pad to three decimal digits (ISO millisecond component). -/
def pad3C (n : Nat) : List Char :=
  if n < 10 then '0' :: '0' :: natDigits n
  else if n < 100 then '0' :: natDigits n
  else natDigits n

/-- Zero-pad to four decimal digits (ISO year component). -/
def pad4C (n : Nat) : List Char :=
  if n < 10 then '0' :: '0' :: '0' :: natDigits n
  else if n < 100 then '0' :: '0' :: natDigits n
  else if n < 1000 then '0' :: natDigits n
  else natDigits n

/-! ### Proleptic-Gregorian (UTC) calendar arithmetic

JS Date stores milliseconds since the Unix epoch and toISOString renders the
UTC calendar date.  The standard civil-from-days / days-from-civil conversion
is used; this development only models nonnegative epoch times (dates from
1970-01-01 on), which covers every timestamp the server can see. -/

/-- Calendar date (year, month, day) of a day number counted from 1970-01-01. -/
def civilFromDays (days : Nat) : Nat × Nat × Nat :=
  let z := days + 719468
  let era := z / 146097
  let doe := z % 146097
  let yoe := (doe - doe / 1460 + doe / 36524 - doe / 146096) / 365
  let y := yoe + era * 400
  let doy := doe - (365 * yoe + yoe / 4 - yoe / 100)
  let mp := (5 * doy + 2) / 153
  let d := doy - (153 * mp + 2) / 5 + 1
  let m := if mp < 10 then mp + 3 else mp - 9
  (if m ≤ 2 then y + 1 else y, m, d)

/-- Day number (from 1970-01-01) of a calendar date with year at least 1970. -/
def daysFromCivil (y m d : Nat) : Nat :=
  let y1 := if m ≤ 2 then y - 1 else y
  let era := y1 / 400
  let yoe := y1 % 400
  let mp := if 2 < m then m - 3 else m + 9
  let doy := (153 * mp + 2) / 5 + (d - 1)
  let doe := yoe * 365 + yoe / 4 - yoe / 100 + doy
  era * 146097 + doe - 719468

/-- The YYYY-MM-DD character rendering of a day number. -/
def isoDateChars (days : Nat) : List Char :=
  let c := civilFromDays days
  pad4C c.1 ++ '-' :: (pad2C c.2.1 ++ '-' :: pad2C c.2.2)

/-- The YYYY-MM-DD string of a day number. -/
def isoDateOfDay (days : Nat) : String :=
  String.mk (isoDateChars days)

/-- The THH:MM:SS.mmmZ tail of an ISO timestamp for a millisecond epoch time. -/
def isoTimeChars (ms : Nat) : List Char :=
  pad2C (ms % 86400000 / 3600000) ++ ':' ::
  (pad2C (ms % 3600000 / 60000) ++ ':' ::
  (pad2C (ms % 60000 / 1000) ++ '.' ::
  (pad3C (ms % 1000) ++ ['Z'])))

/-- Model of JS Date.prototype.toISOString for 0 ≤ ms below the year 10000
(beyond which JS switches to an expanded-year format not modelled here). -/
def jsToISOString (ms : Nat) : String :=
  String.mk (isoDateChars (ms / 86400000) ++ 'T' :: isoTimeChars ms)

/-- Model of s.split(char T)[0]: the (possibly whole) text before the first T. -/
def jsSplitT0 (s : String) : String :=
  String.mk (s.toList.takeWhile (fun c => c ≠ 'T'))

/-- The default departure date of the flight-search handler
(src/server.js line 328):
new Date(Date.now() + 24 * 60 * 60 * 1000).toISOString().split(T)[0],
with now the request-time epoch milliseconds. -/
def defaultDepartureDate (now : Nat) : String :=
  jsSplitT0 (jsToISOString (now + 24 * 60 * 60 * 1000))

/-- Value of an ASCII decimal digit character. -/
def digitVal (c : Char) : Option Nat :=
  if 48 ≤ c.toNat ∧ c.toNat ≤ 57 then some (c.toNat - 48) else none

/-- Model of new Date(s) for a date-only string: accepts exactly the
YYYY-MM-DD shape denoting a real calendar date with year at least 1970 (the
modelled epoch range) and yields its day number; anything else yields none
(JS would yield an Invalid Date, which matches no stored document). -/
def jsParseDateDays (s : String) : Option Nat :=
  match s.toList with
  | [y3, y2, y1, y0, h1, m1, m0, h2, d1, d0] =>
    if h1 = '-' ∧ h2 = '-' then
      match digitVal y3, digitVal y2, digitVal y1, digitVal y0,
            digitVal m1, digitVal m0, digitVal d1, digitVal d0 with
      | some a3, some a2, some a1, some a0, some b1, some b0, some c1, some c0 =>
        let y := a3 * 1000 + a2 * 100 + a1 * 10 + a0
        let m := b1 * 10 + b0
        let d := c1 * 10 + c0
        if 1970 ≤ y ∧ 1 ≤ m ∧ m ≤ 12 ∧ 1 ≤ d ∧ d ≤ 31 ∧
           civilFromDays (daysFromCivil y m d) = (y, m, d) then
          some (daysFromCivil y m d)
        else none
      | _, _, _, _, _, _, _, _ => none
    else none
  | _ => none

/-- new Date(s).getTime() for a date-only string: UTC midnight of that day. -/
def jsParseDateOnly (s : String) : Option Nat :=
  (jsParseDateDays s).map (· * 86400000)


/-! ### Duration rendering, stop labels, display capitalization -/

/-- Does the pattern occur at the head of the text? -/
def headMatches : List Char → List Char → Bool
  | [], _ => true
  | _ :: _, [] => false
  | p :: ps, c :: cs => p == c && headMatches ps cs

/-- Replace the first occurrence of a nonempty pattern, as JS
String.prototype.replace with a string pattern. -/
def replaceFirstC (pat repl : List Char) : List Char → List Char
  | [] => []
  | c :: cs =>
    if headMatches pat (c :: cs) then repl ++ (c :: cs).drop pat.length
    else c :: replaceFirstC pat repl cs

/-- JS s.replace(pat, repl) for string patterns (first occurrence only). -/
def jsReplace (pat repl s : String) : String :=
  String.mk (replaceFirstC pat.toList repl.toList s.toList)

/-- Duration rendering from src/server.js lines 350-353:
duration.replace(PT, empty).replace(H, h-space).replace(M, m). -/
def renderDuration (s : String) : String :=
  jsReplace "M" "m" (jsReplace "H" "h " (jsReplace "PT" "" s))

/-- Stop label from src/server.js line 381, a function of the segment count. -/
def stopsLabel (n : Nat) : String :=
  if n = 1 then "Non-stop"
  else natRepr (n - 1) ++ " Stop" ++ (if 2 < n then "s" else "")

/-- Display capitalization from src/server.js lines 363-364:
s.charAt(0).toUpperCase() + s.slice(1).toLowerCase(). -/
def jsCapitalize (s : String) : String :=
  match s.toList with
  | [] => ""
  | c :: cs => String.mk (upperChar c :: cs.map lowerChar)


/-! ### Provider offers and the flight-offer translator
(src/server.js lines 344-394) -/

/-- One segment of a provider itinerary.  departureAt / arrivalAt are the
raw timestamps (seg.departure.at / seg.arrival.at); aircraft is the optional
aircraft code (seg.aircraft?.code). -/
structure Segment where
  carrierCode : String
  number : String
  departureAt : String
  arrivalAt : String
  aircraft : Option String
  deriving DecidableEq, Repr

/-- One provider itinerary: an ISO-8601 shorthand duration and segments. -/
structure Itinerary where
  duration : String
  segments : List Segment
  deriving DecidableEq, Repr

/-- One fare detail of a traveler pricing.  The source field name class is a
Lean keyword, so it is embedded as fareClass. -/
structure FareDetail where
  cabin : String
  fareClass : String
  deriving DecidableEq, Repr

/-- One traveler pricing of a provider offer. -/
structure TravelerPricing where
  fareDetailsBySegment : List FareDetail
  deriving DecidableEq, Repr

/-- A provider flight offer.  price.total / price.currency are flattened to
priceTotal / priceCurrency; numberOfBookableSeats is optional and 0 counts
as JS-falsy at its use site. -/
structure Offer where
  id : String
  itineraries : List Itinerary
  priceTotal : String
  priceCurrency : String
  numberOfBookableSeats : Option Nat
  travelerPricings : List TravelerPricing
  deriving DecidableEq, Repr

/-- An output segment of the translated record (the object literal of
src/server.js lines 386-392).  flightNumber is seg.number. -/
structure SegOut where
  departureAt : String
  arrivalAt : String
  carrierCode : String
  flightNumber : String
  aircraft : Option String
  deriving DecidableEq, Repr

/-- The translated flight record (the object literal of src/server.js lines
359-393).  The source field names _id and class are not valid Lean
identifiers and are embedded as recId and flightClass; from / to are
fromName / toName. -/
structure FlightRecord where
  recId : String
  flightNumber : String
  airline : String
  fromName : String
  toName : String
  fromCode : String
  toCode : String
  departureTime : String
  arrivalTime : String
  departureDate : String
  duration : String
  price : Int
  currency : String
  stops : String
  availableSeats : Nat
  flightClass : String
  source : String
  bookingClass : String
  segments : List SegOut
  deriving DecidableEq, Repr

/-- Ambient JS functions whose exact behavior the claims do not depend on:
toLocaleTimeString rendering and Math.round(parseFloat(.)) on the price
text.  They are passed as explicit parameters. -/
structure JsFns where
  fmtTime : String → String
  parseRound : String → Int

/-- Carrier display-name resolution from src/server.js line 357:
response.result.dictionaries?.carriers?.[code] || code.  A missing
dictionary, a missing entry, or an empty (JS-falsy) name falls back to the
raw code. -/
def airlineNameOf (carriers : Option (List (String × String))) (code : String) : String :=
  match carriers with
  | none => code
  | some dict =>
    match dict.lookup code with
    | none => code
    | some name => if name = "" then code else name

/-- A possibly-undefined field access: undefined is a thrown TypeError at the
use site, modelled as an Except error. -/
def fieldOr (msg : String) : Option α → Except String α
  | none => .error msg
  | some a => .ok a

/-- The per-offer translation body of the response.data.map callback
(src/server.js lines 344-394).  In JS an undefined intermediate object makes
the next property access throw; every such throw is collapsed into an Except
error (the search handler catch block treats them all alike). -/
def translateOffer (js : JsFns) (carriers : Option (List (String × String)))
    (fromQ toQ originCode destCode : String) (offer : Offer) :
    Except String FlightRecord := do
  let itin ← fieldOr "Cannot read itineraries[0]" offer.itineraries.head?
  let segment ← fieldOr "Cannot read segments[0]" itin.segments.head?
  let lastSegment ← fieldOr "Cannot read last segment" itin.segments.getLast?
  let tp ← fieldOr "Cannot read travelerPricings[0]" offer.travelerPricings.head?
  let fd ← fieldOr "Cannot read fareDetailsBySegment[0]" tp.fareDetailsBySegment.head?
  .ok
    { recId := "amadeus_" ++ offer.id
      flightNumber := segment.carrierCode ++ segment.number
      airline := airlineNameOf carriers segment.carrierCode
      fromName := jsCapitalize fromQ
      toName := jsCapitalize toQ
      fromCode := originCode
      toCode := destCode
      departureTime := js.fmtTime segment.departureAt
      arrivalTime := js.fmtTime lastSegment.arrivalAt
      departureDate := segment.departureAt
      duration := renderDuration itin.duration
      price := js.parseRound offer.priceTotal
      currency := offer.priceCurrency
      stops := stopsLabel itin.segments.length
      availableSeats :=
        match offer.numberOfBookableSeats with
        | none => 9
        | some n => if n = 0 then 9 else n
      flightClass := fd.cabin
      source := "amadeus"
      bookingClass := fd.fareClass
      segments := itin.segments.map
        (fun seg => ⟨seg.departureAt, seg.arrivalAt, seg.carrierCode,
                     seg.number, seg.aircraft⟩) }

/-- The whole response.data.map: JS Array.prototype.map aborts on the first
callback throw, so the batch translation fails as soon as one offer fails. -/
def translateAll (js : JsFns) (carriers : Option (List (String × String)))
    (fromQ toQ originCode destCode : String) :
    List Offer → Except String (List FlightRecord)
  | [] => .ok []
  | o :: rest => do
    let f ← translateOffer js carriers fromQ toQ originCode destCode o
    let fs ← translateAll js carriers fromQ toQ originCode destCode rest
    .ok (f :: fs)

/-! ### Stored flights and the fallback query
(src/server.js lines 108-125 and 413-433) -/

/-- The persisted Flight document (flightSchema, src/server.js lines
108-123).  from / to are fromField / toField (from is a Lean keyword);
departureDate is epoch milliseconds (a Mongo Date); class is flightClass. -/
structure StoredFlight where
  flightNumber : String
  airline : String
  fromField : String
  toField : String
  departureTime : String
  arrivalTime : String
  departureDate : Nat
  duration : String
  price : Int
  stops : String
  totalSeats : Nat
  availableSeats : Nat
  flightClass : String
  status : String
  deriving DecidableEq, Repr

/-- Case-insensitive substring test: the semantics of
new RegExp(pat, flag i).test(text) for a pattern free of regex
metacharacters, which is how the fallback uses the raw city query text.
Patterns containing regex metacharacters are outside this model. -/
def iContains (pat text : String) : Bool :=
  decide ((jsToLowerStr pat).toList <:+: (jsToLowerStr text).toList)

/-- The Mongo filter document built by the fallback catch block
(src/server.js lines 415-425), evaluated on one stored flight: optional
case-insensitive regex on from and to using the raw query text, and, when a
date was supplied, departureDate in [searchDate, searchDate + 24h). -/
def fallbackMatches (fromQ toQ date : Option String) (f : StoredFlight) : Bool :=
  (match fromQ with
   | none => true
   | some s => if s = "" then true else iContains s f.fromField) &&
  (match toQ with
   | none => true
   | some s => if s = "" then true else iContains s f.toField) &&
  (match date with
   | none => true
   | some d =>
     if d = "" then true
     else
       match jsParseDateOnly d with
       | none => false
       | some p => decide (p ≤ f.departureDate) && decide (f.departureDate < p + 86400000))

/-- Mongo sort({price : 1}): ascending sort by price (stable). -/
def sortByPrice (l : List StoredFlight) : List StoredFlight :=
  List.insertionSort (fun a b => a.price ≤ b.price) l

/-! ### The flight-search handler (src/server.js lines 300-438) -/

/-- The query parameters of GET /api/flights/search.  Absent parameters are
none; from / to are fromCity / toCity (from is a Lean keyword). -/
structure SearchQuery where
  fromCity : Option String
  toCity : Option String
  date : Option String
  returnDate : Option String
  adults : Option String
  travelClass : Option String
  deriving DecidableEq, Repr

/-- The provider response: response.data plus the optional
response.result.dictionaries?.carriers dictionary. -/
structure ProviderResponse where
  data : List Offer
  carriers : Option (List (String × String))
  deriving DecidableEq, Repr

/-- The request-scoped environment of one search request: the request time,
the ambient JS functions, the outcome the provider call would have, the
persisted flight collection, and whether the fallback persistence query
itself fails. -/
structure SearchEnv where
  now : Nat
  js : JsFns
  provider : Except String ProviderResponse
  stored : List StoredFlight
  dbFails : Bool

/-- The response of the search handler.  badRequest renders a 400,
providerOk and fallback render a 200, serverError renders a 500 with
error = Failed to fetch flights and details = the provider-side message. -/
inductive SearchResult where
  | badRequest (error : String)
  | providerOk (flights : List FlightRecord) (count : Nat) (source : String)
      (paramFrom paramTo paramDate : String)
  | fallback (flights : List StoredFlight) (count : Nat) (source : String)
      (message : String)
  | serverError (error : String) (details : String)
  deriving DecidableEq, Repr

/-- HTTP status of each search response shape (res.status in the source;
res.json alone is a 200). -/
def statusOf : SearchResult → Nat
  | .badRequest _ => 400
  | .providerOk _ _ _ _ _ _ => 200
  | .fallback _ _ _ _ => 200
  | .serverError _ _ => 500

/-- A handler outcome together with which external systems were contacted. -/
structure HandlerTrace where
  result : SearchResult
  providerCalled : Bool
  dbCalled : Bool
  deriving DecidableEq, Repr

/-- JS falsy test on a possibly-undefined string (undefined or empty). -/
def falsyStr : Option String → Bool
  | none => true
  | some s => s == ""

/-- The fallback branch of the catch block (src/server.js lines 413-436):
query the stored flights with the raw request text, sort ascending by
price, answer 200 with source database; if that query itself rejects,
answer 500.  msg is the message of the error that reached the catch. -/
def fallbackPath (env : SearchEnv) (q : SearchQuery) (msg : String) : SearchResult :=
  if env.dbFails then .serverError "Failed to fetch flights" msg
  else
    let found := sortByPrice
      (env.stored.filter (fallbackMatches q.fromCity q.toCity q.date))
    .fallback found found.length "database"
      "Amadeus API unavailable, showing cached results"

/-- The GET /api/flights/search handler (src/server.js lines 300-438).
Validation and code resolution return early without throwing; the provider
call and the batch translation can fail, and both failures reach the same
catch block, which runs the database fallback. -/
def searchHandler (env : SearchEnv) (q : SearchQuery) : HandlerTrace :=
  if falsyStr q.fromCity || falsyStr q.toCity then
    ⟨.badRequest "From and To cities are required", false, false⟩
  else
    match getIATACode q.fromCity with
    | none =>
      ⟨.badRequest ("Unknown city: " ++ q.fromCity.getD "" ++
        ". Please use city name or IATA code."), false, false⟩
    | some originCode =>
      match getIATACode q.toCity with
      | none =>
        ⟨.badRequest ("Unknown city: " ++ q.toCity.getD "" ++
          ". Please use city name or IATA code."), false, false⟩
      | some destCode =>
        let departureDate :=
          match q.date with
          | none => defaultDepartureDate env.now
          | some d => if d = "" then defaultDepartureDate env.now else d
        match env.provider with
        | .error msg => ⟨fallbackPath env q msg, true, true⟩
        | .ok resp =>
          match translateAll env.js resp.carriers (q.fromCity.getD "")
              (q.toCity.getD "") originCode destCode resp.data with
          | .error msg => ⟨fallbackPath env q msg, true, true⟩
          | .ok flights =>
            ⟨.providerOk flights flights.length "Amadeus API"
              originCode destCode departureDate, true, false⟩

/-! ### Login handler (src/server.js lines 262-295) -/

/-- A persisted User document (the fields the login handler reads). -/
structure LoginUser where
  id : String
  firstName : String
  lastName : String
  email : String
  password : String
  deriving DecidableEq, Repr

/-- The login response: 401 with a generic error, or 200 with a token and
the user snapshot. -/
inductive LoginResult where
  | unauthorized (status : Nat) (error : String)
  | success (message : String) (token : String)
      (userId firstName lastName email : String)
  deriving DecidableEq, Repr

/-- The POST /api/auth/login handler.  findOne({email}) is the first user in
the collection with that email; bcryptCompare and signToken are the ambient
bcrypt.compare and jwt.sign, passed as explicit functions. -/
def loginHandler (db : List LoginUser) (bcryptCompare : String → String → Bool)
    (signToken : String → String → String) (email password : String) : LoginResult :=
  match db.find? (fun u => u.email == email) with
  | none => .unauthorized 401 "Invalid credentials"
  | some user =>
    if bcryptCompare password user.password then
      .success "Login successful" (signToken user.id user.email)
        user.id user.firstName user.lastName user.email
    else .unauthorized 401 "Invalid credentials"

/-! ### Booking handler (src/server.js lines 588-615) -/

/-- Base-36 digit character, as JS Number.prototype.toString(36)
(0-9 then lowercase a-z). -/
def b36Digit (d : Nat) : Char :=
  if d < 10 then Char.ofNat (48 + d) else Char.ofNat (87 + d)

/-- Base-36 digit-list worker on a fuel bound (fuel exceeds the argument). -/
def b36DigitsAux (fuel : Nat) (n : Nat) : List Char :=
  match fuel with
  | 0 => []
  | fuel + 1 =>
    if n < 36 then [b36Digit n]
    else b36DigitsAux fuel (n / 36) ++ [b36Digit (n % 36)]

/-- JS n.toString(36) for a nonnegative integral Number: base-36 rendering,
most significant digit first, lowercase letters. -/
def toBase36 (n : Nat) : String :=
  String.mk (b36DigitsAux (n + 1) n)

/-- Numeric value of one base-36 digit character (inverse of b36Digit). -/
def b36Val (c : Char) : Nat :=
  if c.toNat ≤ 57 then c.toNat - 48 else c.toNat - 87

/-- Numeric value of a base-36 string, case-insensitively. -/
def base36Val (s : String) : Nat :=
  (jsToLowerStr s).toList.foldl (fun acc c => acc * 36 + b36Val c) 0

/-- Customer contact snapshot embedded in a booking. -/
structure CustomerInfo where
  firstName : String
  lastName : String
  email : String
  phone : String
  deriving DecidableEq, Repr

/-- The request body of POST /api/bookings.  The open-ended bookingDetails
payload is opaque to the handler and modelled as a string. -/
structure BookingBody where
  bookingType : String
  serviceId : String
  customerInfo : CustomerInfo
  bookingDetails : String
  totalAmount : Int
  deriving DecidableEq, Repr

/-- The persisted Booking document as the handler constructs it. -/
structure BookingDoc where
  bookingReference : String
  userId : String
  bookingType : String
  serviceId : String
  customerInfo : CustomerInfo
  bookingDetails : String
  totalAmount : Int
  paymentStatus : String
  bookingStatus : String
  createdAt : Nat
  deriving DecidableEq, Repr

/-- The POST /api/bookings handler body (src/server.js lines 588-615), after
token authentication: builds the document that booking.save() persists.
now is Date.now() at the request; userId is req.user.id from the token. -/
def createBooking (now : Nat) (userId : String) (b : BookingBody) : BookingDoc :=
  { bookingReference := "BK" ++ jsToUpperStr (toBase36 now)
    userId := userId
    bookingType := b.bookingType
    serviceId := b.serviceId
    customerInfo := b.customerInfo
    bookingDetails := b.bookingDetails
    totalAmount := b.totalAmount
    paymentStatus := "completed"
    bookingStatus := "confirmed"
    createdAt := now }


/-! ### Auxiliary predicates, order instances and sample data -/

/-- Characters on which the regex-as-literal reading of the fallback query is
exact: ASCII letters, digits and space carry no regex metacharacter. -/
def isPlainQueryChar (c : Char) : Bool :=
  isLowerAlpha c || decide (65 ≤ c.toNat ∧ c.toNat ≤ 90) ||
  decide (48 ≤ c.toNat ∧ c.toNat ≤ 57) || c == ' '

instance : DecidableRel (fun a b : StoredFlight => a.price ≤ b.price) :=
  fun a b => Int.decLe a.price b.price

instance : IsTotal StoredFlight (fun a b => a.price ≤ b.price) :=
  ⟨fun a b => Int.le_total a.price b.price⟩

instance : IsTrans StoredFlight (fun a b => a.price ≤ b.price) :=
  ⟨fun _ _ _ h1 h2 => le_trans h1 h2⟩

/-- Ambient JS functions fixed for concrete runs: time rendering is the
identity and price parsing yields 0 (no claim depends on either). -/
def wJs : JsFns := ⟨fun s => s, fun _ => 0⟩

/-- A well-formed provider offer: one itinerary, one segment, complete
traveler pricing. -/
def wSampleOffer : Offer :=
  { id := "1"
    itineraries := [⟨"PT2H30M",
      [⟨"PK", "303", "2025-01-02T10:00", "2025-01-02T12:30", some "320"⟩]⟩]
    priceTotal := "25000.00"
    priceCurrency := "PKR"
    numberOfBookableSeats := some 4
    travelerPricings := [⟨[⟨"ECONOMY", "Y"⟩]⟩] }

/-- A well-formed offer whose itinerary duration has an hours component but
no minutes component, and whose bookable-seat count is absent. -/
def wOfferHoursOnly : Offer :=
  { id := "2"
    itineraries := [⟨"PT2H",
      [⟨"EK", "623", "2025-01-02T09:00", "2025-01-02T11:00", none⟩]⟩]
    priceTotal := "41000.00"
    priceCurrency := "PKR"
    numberOfBookableSeats := none
    travelerPricings := [⟨[⟨"ECONOMY", "Y"⟩]⟩] }

/-- A malformed provider offer: travelerPricings is empty, so reading the
first traveler fare-segment detail throws during translation. -/
def wBadOffer : Offer :=
  { id := "3"
    itineraries := [⟨"PT3H15M",
      [⟨"QR", "629", "2025-01-02T08:00", "2025-01-02T11:15", none⟩]⟩]
    priceTotal := "52000.00"
    priceCurrency := "PKR"
    numberOfBookableSeats := some 2
    travelerPricings := [] }

/-- A stored flight from Lahore to Dubai, price 500. -/
def wStoredExp : StoredFlight :=
  { flightNumber := "PK303", airline := "PIA"
    fromField := "Lahore", toField := "Dubai"
    departureTime := "10:00 AM", arrivalTime := "12:30 PM"
    departureDate := 86400000, duration := "2h 30m"
    price := 500, stops := "Non-stop", totalSeats := 180
    availableSeats := 20, flightClass := "Economy", status := "scheduled" }

/-- A cheaper stored flight from Lahore to Dubai, price 300. -/
def wStoredCheap : StoredFlight :=
  { flightNumber := "EK623", airline := "Emirates"
    fromField := "Lahore", toField := "Dubai"
    departureTime := "09:00 AM", arrivalTime := "11:00 AM"
    departureDate := 90000000, duration := "2h 0m"
    price := 300, stops := "Non-stop", totalSeats := 350
    availableSeats := 9, flightClass := "Economy", status := "scheduled" }

/-- A query for lahore to dubai with no date. -/
def wQuery : SearchQuery :=
  { fromCity := some "lahore", toCity := some "dubai", date := none
    returnDate := none, adults := none, travelClass := none }

/-- An environment whose provider call fails and whose fallback query
succeeds over two stored flights. -/
def wEnvProviderDown : SearchEnv :=
  { now := 0, js := wJs, provider := .error "provider down"
    stored := [wStoredExp, wStoredCheap], dbFails := false }

/-- An environment whose provider call succeeds but returns one malformed
offer, with a healthy fallback store. -/
def wEnvBadOffer : SearchEnv :=
  { now := 0, js := wJs, provider := .ok ⟨[wBadOffer], none⟩
    stored := [wStoredExp, wStoredCheap], dbFails := false }

/-- A minimal environment for exercising the validation branch. -/
def wEnvPlain : SearchEnv :=
  { now := 0, js := wJs, provider := .error "unused"
    stored := [], dbFails := false }

/-- A query missing the destination text. -/
def wQueryNoTo : SearchQuery :=
  { fromCity := some "lahore", toCity := none, date := none
    returnDate := none, adults := none, travelClass := none }

/-- A query missing the origin text. -/
def wQueryNoFrom : SearchQuery :=
  { fromCity := none, toCity := some "dubai", date := none
    returnDate := none, adults := none, travelClass := none }

/-- A stored user for exercising the login handler. -/
def wUser : LoginUser :=
  { id := "u1", firstName := "Aisha", lastName := "Khan"
    email := "aisha@example.com", password := "storedhash" }

/-! ### Helper lemmas -/

/-- A decimal digit character built from a value below ten is not T. -/
theorem char48_ne_T (d : Nat) (hd : d < 10) : Char.ofNat (48 + d) ≠ 'T' := by
  interval_cases d <;> decide

/-- No character produced by the digit worker is T. -/
theorem natDigitsAux_ne_T :
    ∀ (fuel n : Nat), ∀ c ∈ natDigitsAux fuel n, c ≠ 'T' := by
  intro fuel
  induction fuel with
  | zero => intro n c hc; simp [natDigitsAux] at hc
  | succ f ih =>
    intro n c hc
    by_cases h : n < 10
    · simp [natDigitsAux, h] at hc
      subst hc
      exact char48_ne_T n h
    · simp only [natDigitsAux, if_neg h, List.mem_append, List.mem_singleton] at hc
      rcases hc with hc | hc
      · exact ih (n / 10) c hc
      · subst hc
        exact char48_ne_T (n % 10) (Nat.mod_lt n (by omega))

/-- No character of a rendered decimal number is T. -/
theorem natDigits_ne_T (n : Nat) : ∀ c ∈ natDigits n, c ≠ 'T' :=
  natDigitsAux_ne_T (n + 1) n

/-- No character of a two-digit padded number is T. -/
theorem pad2C_ne_T (n : Nat) : ∀ c ∈ pad2C n, c ≠ 'T' := by
  intro c hc
  unfold pad2C at hc
  split at hc
  · rcases List.mem_cons.mp hc with rfl | hc
    · decide
    · exact natDigits_ne_T n c hc
  · exact natDigits_ne_T n c hc

/-- No character of a four-digit padded number is T. -/
theorem pad4C_ne_T (n : Nat) : ∀ c ∈ pad4C n, c ≠ 'T' := by
  intro c hc
  unfold pad4C at hc
  split at hc
  · rcases List.mem_cons.mp hc with rfl | hc
    · decide
    rcases List.mem_cons.mp hc with rfl | hc
    · decide
    rcases List.mem_cons.mp hc with rfl | hc
    · decide
    · exact natDigits_ne_T n c hc
  · split at hc
    · rcases List.mem_cons.mp hc with rfl | hc
      · decide
      rcases List.mem_cons.mp hc with rfl | hc
      · decide
      · exact natDigits_ne_T n c hc
    · split at hc
      · rcases List.mem_cons.mp hc with rfl | hc
        · decide
        · exact natDigits_ne_T n c hc
      · exact natDigits_ne_T n c hc

/-- No character of the rendered calendar date is T. -/
theorem isoDateChars_ne_T (days : Nat) : ∀ c ∈ isoDateChars days, c ≠ 'T' := by
  intro c hc
  unfold isoDateChars at hc
  simp only [List.mem_append, List.mem_cons] at hc
  rcases hc with hc | rfl | hc | rfl | hc
  · exact pad4C_ne_T _ c hc
  · decide
  · exact pad2C_ne_T _ c hc
  · decide
  · exact pad2C_ne_T _ c hc

/-- takeWhile up to the first T returns exactly the T-free front. -/
theorem takeWhile_ne_T_append (l1 l2 : List Char) (h : ∀ c ∈ l1, c ≠ 'T') :
    (l1 ++ 'T' :: l2).takeWhile (fun c => c ≠ 'T') = l1 := by
  induction l1 with
  | nil => simp
  | cons c cs ih =>
    have hc : c ≠ 'T' := h c (List.mem_cons_self c cs)
    have hpc : (fun c => decide (c ≠ 'T')) c = true := by simpa using hc
    simp only [List.cons_append, List.takeWhile_cons, hpc, if_true]
    exact congrArg (List.cons c) (ih (fun x hx => h x (List.mem_cons_of_mem c hx)))

/-- jsSplitT0 acts on the underlying character list. -/
theorem jsSplitT0_mk (l : List Char) :
    jsSplitT0 (String.mk l) = String.mk (l.takeWhile (fun c => c ≠ 'T')) := rfl

/-- Splitting the ISO rendering of an epoch time at T yields exactly the
rendered UTC calendar date of that time. -/
theorem jsSplitT0_jsToISOString (ms : Nat) :
    jsSplitT0 (jsToISOString ms) = isoDateOfDay (ms / 86400000) := by
  rw [show jsToISOString ms =
    String.mk (isoDateChars (ms / 86400000) ++ 'T' :: isoTimeChars ms) from rfl]
  rw [jsSplitT0_mk]
  rw [takeWhile_ne_T_append _ _ (isoDateChars_ne_T (ms / 86400000))]
  rfl

/-- If any one offer of a batch fails to translate, the whole batch
translation fails (Array.prototype.map aborts at the first throw). -/
theorem translateAll_error_of_mem (js : JsFns)
    (carriers : Option (List (String × String))) (fq tq oc dc : String)
    {offers : List Offer} {o : Offer} {e : String}
    (ho : o ∈ offers)
    (he : translateOffer js carriers fq tq oc dc o = .error e) :
    ∃ e2, translateAll js carriers fq tq oc dc offers = .error e2 := by
  induction offers with
  | nil => cases ho
  | cons hd tl ih =>
    rcases List.mem_cons.mp ho with rfl | hm
    · exact ⟨e, by simp [translateAll, he, Bind.bind, Except.bind]⟩
    · cases hh : translateOffer js carriers fq tq oc dc hd with
      | error e3 => exact ⟨e3, by simp [translateAll, hh, Bind.bind, Except.bind]⟩
      | ok f =>
        obtain ⟨e2, h2⟩ := ih hm
        exact ⟨e2, by simp [translateAll, hh, h2, Bind.bind, Except.bind]⟩

/-- A successfully translated offer determines the derived fields from its
first itinerary exactly as the translator computes them. -/
theorem translateOffer_ok_fields (js : JsFns)
    (carriers : Option (List (String × String))) (fq tq oc dc : String)
    (offer : Offer) (r : FlightRecord)
    (h : translateOffer js carriers fq tq oc dc offer = .ok r) :
    ∃ itin, offer.itineraries.head? = some itin ∧
      r.stops = stopsLabel itin.segments.length ∧
      r.duration = renderDuration itin.duration ∧
      r.availableSeats = (match offer.numberOfBookableSeats with
        | none => 9
        | some n => if n = 0 then 9 else n) ∧
      r.source = "amadeus" := by
  cases hi : offer.itineraries.head? with
  | none => simp [translateOffer, fieldOr, hi, Bind.bind, Except.bind] at h
  | some itin =>
    cases hs : itin.segments.head? with
    | none => simp [translateOffer, fieldOr, hi, hs, Bind.bind, Except.bind] at h
    | some seg =>
      cases hl : itin.segments.getLast? with
      | none => simp [translateOffer, fieldOr, hi, hs, hl, Bind.bind, Except.bind] at h
      | some lastSeg =>
        cases ht : offer.travelerPricings.head? with
        | none =>
          simp [translateOffer, fieldOr, hi, hs, hl, ht, Bind.bind, Except.bind] at h
        | some tp =>
          cases hf : tp.fareDetailsBySegment.head? with
          | none =>
            simp [translateOffer, fieldOr, hi, hs, hl, ht, hf,
              Bind.bind, Except.bind] at h
          | some fd =>
            refine ⟨itin, rfl, ?_⟩
            simp only [translateOffer, fieldOr, hi, hs, hl, ht, hf,
              Bind.bind, Except.bind, Except.ok.injEq] at h
            subst h
            simp

/-- The value of one lower-cased base-36 digit is its source value. -/
theorem b36Val_lowerChar_b36Digit (d : Nat) (hd : d < 36) :
    b36Val (lowerChar (b36Digit d)) = d := by
  interval_cases d <;> decide

/-- Folding the base-36 digit list of n over a seed recovers n. -/
theorem b36DigitsAux_foldl (fuel : Nat) :
    ∀ n acc, n < fuel →
      (b36DigitsAux fuel n).foldl (fun a c => a * 36 + b36Val (lowerChar c)) acc =
        acc * 36 ^ (b36DigitsAux fuel n).length + n := by
  induction fuel with
  | zero => intro n acc h; omega
  | succ f ih =>
    intro n acc h
    by_cases h36 : n < 36
    · simp [b36DigitsAux, h36, b36Val_lowerChar_b36Digit n h36]
    · have hdivlt : n / 36 < n := Nat.div_lt_self (by omega) (by omega)
      have hdiv : n / 36 < f := by omega
      simp only [b36DigitsAux, if_neg h36]
      rw [List.foldl_append]
      simp only [List.foldl_cons, List.foldl_nil]
      rw [ih (n / 36) acc hdiv]
      rw [List.length_append, List.length_singleton]
      rw [b36Val_lowerChar_b36Digit (n % 36) (Nat.mod_lt n (by omega))]
      have hexp : (acc * 36 ^ (b36DigitsAux f (n / 36)).length + n / 36) * 36 + n % 36 =
          acc * (36 ^ (b36DigitsAux f (n / 36)).length * 36) + (36 * (n / 36) + n % 36) := by
        ring
      rw [hexp, Nat.div_add_mod, pow_succ]

/-- Decoding the base-36 rendering of a timestamp recovers the timestamp:
the booking-reference suffix really is the base-36 encoding of now. -/
theorem base36Val_toBase36 (n : Nat) : base36Val (toBase36 n) = n := by
  show (String.mk ((String.mk (b36DigitsAux (n + 1) n)).toList.map lowerChar)).toList.foldl
    (fun a c => a * 36 + b36Val c) 0 = n
  rw [show (String.mk ((String.mk (b36DigitsAux (n + 1) n)).toList.map lowerChar)).toList =
    (b36DigitsAux (n + 1) n).map lowerChar from rfl]
  rw [List.foldl_map]
  rw [b36DigitsAux_foldl (n + 1) n 0 (Nat.lt_succ_self n)]
  simp

/-! ### Claim theorems -/

/-- Claim C2: getIATACode returns none for an absent or empty input; when the
trimmed, lowercased input is exactly 3 lowercase letters it is uppercased and
returned directly with no table lookup or existence check; otherwise the
trimmed, lowercased input is looked up by exact match in the fixed city table
(hence matching ignores casing and surrounding whitespace), and absence from
the table yields none. -/
theorem getIATACode_spec (s : String) :
    getIATACode none = none ∧
    getIATACode (some "") = none ∧
    (s ≠ "" →
      (isAlpha3 (jsTrimStr (jsToLowerStr s)) = true →
        getIATACode (some s) = some (jsToUpperStr (jsTrimStr (jsToLowerStr s)))) ∧
      (isAlpha3 (jsTrimStr (jsToLowerStr s)) = false →
        getIATACode (some s) = cityToIATA.lookup (jsTrimStr (jsToLowerStr s))) ∧
      (∀ s2, s2 ≠ "" → jsTrimStr (jsToLowerStr s2) = jsTrimStr (jsToLowerStr s) →
        getIATACode (some s2) = getIATACode (some s))) := by
  refine ⟨rfl, rfl, fun hs => ⟨fun hcond => ?_, fun hcond => ?_, fun s2 hs2 heq => ?_⟩⟩
  · simp [getIATACode, hs, hcond]
  · simp [getIATACode, hs, hcond]
  · simp only [getIATACode, hs, hs2, if_neg, heq]

/-- Witness for claim C2: a padded mixed-case city name resolves through the
table, and a lowercase 3-letter code passes through uppercased. -/
theorem getIATACode_spec_witness :
    getIATACode (some " Lahore ") = some "LHE" ∧
    getIATACode (some "xqz") = some "XQZ" := by
  constructor
  · have h := ((getIATACode_spec " Lahore ").2.2 (by decide)).2.1 (by decide)
    rw [h]; decide
  · have h := ((getIATACode_spec "xqz").2.2 (by decide)).1 (by decide)
    rw [h]; decide

/-- Claim C4 (code bug): the naive replace chain renders PT2H30M as 2h 30m,
but an hours-only duration such as PT2H is rendered with a dangling trailing
space (2h followed by a space), not a graceful omission of the minutes
component; the translator reproduces this on a concrete offer. -/
theorem renderDuration_hours_only_bug :
    renderDuration "PT2H30M" = "2h 30m" ∧
    renderDuration "PT2H" = "2h " ∧
    renderDuration "PT2H" ≠ "2h" ∧
    (translateOffer wJs none "lahore" "dubai" "LHE" "DXB" wOfferHoursOnly).map
      (fun r => r.duration) = .ok "2h " := by
  refine ⟨by decide, by decide, by decide, rfl⟩

/-- Claim C5 counterexample: two requests made one hour apart send the same
default departure date, so the value sent is not a fixed 24-hour offset from
the request time; moreover it coincides with the rendering of the tomorrow-
at-midnight instant. -/
theorem defaultDepartureDate_counterexample :
    defaultDepartureDate 0 = "1970-01-02" ∧
    defaultDepartureDate 3600000 = "1970-01-02" ∧
    defaultDepartureDate 0 = jsSplitT0 (jsToISOString 86400000) := by
  refine ⟨by decide, by decide, by decide⟩

/-- Claim C5 amended: when no travel date is supplied, the departure date
sent to the provider is the YYYY-MM-DD rendering of the UTC calendar day
that contains the instant 24 hours after the request, which is exactly the
next UTC calendar day after the request (day truncation, not a timestamp
offset).  The bound keeps the request inside the modelled pre-year-10000
range of toISOString. -/
theorem defaultDepartureDate_is_next_utc_day (now : Nat)
    (h : now + 86400000 < 253402300800000) :
    defaultDepartureDate now = isoDateOfDay (now / 86400000 + 1) := by
  unfold defaultDepartureDate
  rw [show now + 24 * 60 * 60 * 1000 = now + 86400000 from rfl]
  rw [jsSplitT0_jsToISOString]
  congr 1
  omega

/-- Witness for the amended claim C5 at the epoch instant. -/
theorem defaultDepartureDate_is_next_utc_day_witness :
    0 + 86400000 < 253402300800000 ∧
    defaultDepartureDate 0 = isoDateOfDay (0 / 86400000 + 1) :=
  ⟨by decide, defaultDepartureDate_is_next_utc_day 0 (by decide)⟩

/-- Claim C7: the stops label of a translated offer is a pure function of the
segment count of its first itinerary: 1 segment gives Non-stop, 2 segments
give 1 Stop (singular), and more than 2 segments give the plural form with
the count decremented by one. -/
theorem stops_label_spec (js : JsFns) (carriers : Option (List (String × String)))
    (fq tq oc dc : String) (offer : Offer) (r : FlightRecord)
    (h : translateOffer js carriers fq tq oc dc offer = .ok r)
    (n : Nat) (hn : 2 < n) :
    (∃ itin, offer.itineraries.head? = some itin ∧
      r.stops = stopsLabel itin.segments.length) ∧
    stopsLabel 1 = "Non-stop" ∧
    stopsLabel 2 = "1 Stop" ∧
    stopsLabel n = natRepr (n - 1) ++ " Stops" := by
  obtain ⟨itin, hi, hstops, -, -, -⟩ :=
    translateOffer_ok_fields js carriers fq tq oc dc offer r h
  refine ⟨⟨itin, hi, hstops⟩, by decide, by decide, ?_⟩
  unfold stopsLabel
  rw [if_neg (by omega), if_pos hn]
  rw [String.append_assoc]
  rfl

/-- Witness for claim C7 on a concrete well-formed offer and counts 1, 2, 3. -/
theorem stops_label_spec_witness :
    stopsLabel 1 = "Non-stop" ∧ stopsLabel 2 = "1 Stop" ∧ stopsLabel 3 = "2 Stops" := by
  obtain ⟨r, hr⟩ :
      ∃ r, translateOffer wJs none "lahore" "dubai" "LHE" "DXB" wSampleOffer = .ok r :=
    ⟨_, rfl⟩
  have h := stops_label_spec wJs none "lahore" "dubai" "LHE" "DXB" wSampleOffer r hr 3
    (by omega)
  refine ⟨h.2.1, h.2.2.1, ?_⟩
  rw [h.2.2.2]; decide

/-- Claim C9: every booking constructed by the booking handler carries the
reference BK followed by the uppercased base-36 rendering of the request
timestamp, payment status completed, and booking status confirmed, whatever
the request body contains; the base-36 suffix decodes back to the timestamp. -/
theorem createBooking_postconditions (now : Nat) (userId : String) (b : BookingBody) :
    (createBooking now userId b).bookingReference = "BK" ++ jsToUpperStr (toBase36 now) ∧
    (createBooking now userId b).paymentStatus = "completed" ∧
    (createBooking now userId b).bookingStatus = "confirmed" ∧
    base36Val (toBase36 now) = now :=
  ⟨rfl, rfl, rfl, base36Val_toBase36 now⟩

/-- Claim C10: the availableSeats of a translated offer defaults to 9 when
the provider bookable-seat count is absent or zero (JS-falsy), and is the
provider value otherwise. -/
theorem availableSeats_spec (js : JsFns) (carriers : Option (List (String × String)))
    (fq tq oc dc : String) (offer : Offer) (r : FlightRecord)
    (h : translateOffer js carriers fq tq oc dc offer = .ok r) :
    (offer.numberOfBookableSeats = none → r.availableSeats = 9) ∧
    (offer.numberOfBookableSeats = some 0 → r.availableSeats = 9) ∧
    (∀ n, offer.numberOfBookableSeats = some n → n ≠ 0 → r.availableSeats = n) := by
  obtain ⟨itin, -, -, -, hseats, -⟩ :=
    translateOffer_ok_fields js carriers fq tq oc dc offer r h
  refine ⟨fun hn => ?_, fun hn => ?_, fun n hn hnz => ?_⟩
  · rw [hseats, hn]
  · rw [hseats, hn]; simp
  · rw [hseats, hn]; simp [hnz]

/-- Witness for claim C10: a concrete offer with an absent seat count
translates to a record with 9 available seats. -/
theorem availableSeats_spec_witness :
    ∃ r, translateOffer wJs none "lahore" "dubai" "LHE" "DXB" wOfferHoursOnly = .ok r ∧
      r.availableSeats = 9 := by
  obtain ⟨r, hr⟩ :
      ∃ r, translateOffer wJs none "lahore" "dubai" "LHE" "DXB" wOfferHoursOnly = .ok r :=
    ⟨_, rfl⟩
  exact ⟨r, hr,
    (availableSeats_spec wJs none "lahore" "dubai" "LHE" "DXB" wOfferHoursOnly r hr).1 rfl⟩

/-- Claim C8: a login with an email that matches no user and a login with an
existing email but failing credential check produce identical responses:
the same 401 status and the same generic Invalid credentials message, so the
response carries no user-enumeration signal. -/
theorem login_no_enumeration (db : List LoginUser)
    (bcryptCompare : String → String → Bool) (signToken : String → String → String)
    (e1 p1 e2 p2 : String) (u : LoginUser)
    (h1 : db.find? (fun x => x.email == e1) = none)
    (h2 : db.find? (fun x => x.email == e2) = some u)
    (h3 : bcryptCompare p2 u.password = false) :
    loginHandler db bcryptCompare signToken e1 p1 =
      .unauthorized 401 "Invalid credentials" ∧
    loginHandler db bcryptCompare signToken e2 p2 =
      .unauthorized 401 "Invalid credentials" ∧
    loginHandler db bcryptCompare signToken e1 p1 =
      loginHandler db bcryptCompare signToken e2 p2 := by
  have hA : loginHandler db bcryptCompare signToken e1 p1 =
      .unauthorized 401 "Invalid credentials" := by
    simp [loginHandler, h1]
  have hB : loginHandler db bcryptCompare signToken e2 p2 =
      .unauthorized 401 "Invalid credentials" := by
    simp [loginHandler, h2, h3]
  exact ⟨hA, hB, hA.trans hB.symm⟩

/-- Witness for claim C8 on a one-user store with a failing credential check. -/
theorem login_no_enumeration_witness :
    loginHandler [wUser] (fun _ _ => false) (fun a b => a ++ b)
      "nobody@example.com" "pw" = .unauthorized 401 "Invalid credentials" ∧
    loginHandler [wUser] (fun _ _ => false) (fun a b => a ++ b)
      "aisha@example.com" "wrong" = .unauthorized 401 "Invalid credentials" := by
  have h := login_no_enumeration [wUser] (fun _ _ => false) (fun a b => a ++ b)
    "nobody@example.com" "pw" "aisha@example.com" "wrong" wUser
    (by decide) (by decide) rfl
  exact ⟨h.1, h.2.1⟩

/-- Claim C6 counterexample: a request missing only the destination and a
request missing only the origin receive the same fixed error message, so the
client error does not identify which field is missing (it names both fields
unconditionally). -/
theorem search_missing_field_message_counterexample :
    (searchHandler wEnvPlain wQueryNoTo).result =
      .badRequest "From and To cities are required" ∧
    (searchHandler wEnvPlain wQueryNoFrom).result =
      .badRequest "From and To cities are required" ∧
    (searchHandler wEnvPlain wQueryNoTo).result =
      (searchHandler wEnvPlain wQueryNoFrom).result := by
  refine ⟨by decide, by decide, by decide⟩

/-- Claim C6 amended: when the origin or destination text is missing or
empty, the handler fails fast with a 400 and the fixed message naming both
required fields (without identifying which one is missing), and neither the
provider nor the persistence layer is contacted. -/
theorem search_missing_field_fail_fast (env : SearchEnv) (q : SearchQuery)
    (h : falsyStr q.fromCity = true ∨ falsyStr q.toCity = true) :
    searchHandler env q =
      ⟨.badRequest "From and To cities are required", false, false⟩ ∧
    statusOf (searchHandler env q).result = 400 ∧
    (searchHandler env q).providerCalled = false ∧
    (searchHandler env q).dbCalled = false := by
  have hcond : (falsyStr q.fromCity || falsyStr q.toCity) = true := by
    rcases h with h | h <;> simp [h]
  have hmain : searchHandler env q =
      ⟨.badRequest "From and To cities are required", false, false⟩ := by
    unfold searchHandler
    rw [if_pos hcond]
  exact ⟨hmain, by rw [hmain]; rfl, by rw [hmain], by rw [hmain]⟩

/-- Witness for the amended claim C6 on a request missing its destination. -/
theorem search_missing_field_fail_fast_witness :
    searchHandler wEnvPlain wQueryNoTo =
      ⟨.badRequest "From and To cities are required", false, false⟩ :=
  (search_missing_field_fail_fast wEnvPlain wQueryNoTo (Or.inr (by decide))).1

/-- Claim C1: after successful validation and code resolution, a failing
provider call makes the handler answer 200 from the stored-flight collection,
filtered by case-insensitive substring on the raw origin/destination query
text (not the resolved codes) and, when a date was supplied, restricted to
the 24-hour window starting at the UTC midnight of that calendar day,
sorted ascending by price, with source marker database; an empty result is
still a 200, and only a failing fallback persistence query yields a 500.
The plain-character hypotheses confine the raw text to the regime where the
source regex is a literal substring pattern. -/
theorem search_provider_failure_fallback (env : SearchEnv) (q : SearchQuery)
    (oc dc m : String)
    (hfrom : falsyStr q.fromCity = false)
    (hto : falsyStr q.toCity = false)
    (hoc : getIATACode q.fromCity = some oc)
    (hdc : getIATACode q.toCity = some dc)
    (hprov : env.provider = .error m)
    (hplain1 : (q.fromCity.getD "").toList.all isPlainQueryChar = true)
    (hplain2 : (q.toCity.getD "").toList.all isPlainQueryChar = true) :
    (env.dbFails = false →
      searchHandler env q =
        ⟨.fallback
          (sortByPrice (env.stored.filter
            (fallbackMatches q.fromCity q.toCity q.date)))
          (sortByPrice (env.stored.filter
            (fallbackMatches q.fromCity q.toCity q.date))).length
          "database" "Amadeus API unavailable, showing cached results",
          true, true⟩ ∧
      statusOf (searchHandler env q).result = 200 ∧
      List.Sorted (fun a b => a.price ≤ b.price)
        (sortByPrice (env.stored.filter
          (fallbackMatches q.fromCity q.toCity q.date))) ∧
      (sortByPrice (env.stored.filter
        (fallbackMatches q.fromCity q.toCity q.date))).Perm
        (env.stored.filter (fallbackMatches q.fromCity q.toCity q.date))) ∧
    (env.dbFails = true →
      searchHandler env q =
        ⟨.serverError "Failed to fetch flights" m, true, true⟩ ∧
      statusOf (searchHandler env q).result = 500) ∧
    (∀ d p, q.date = some d → jsParseDateOnly d = some p → p % 86400000 = 0) := by
  have hmain : searchHandler env q = ⟨fallbackPath env q m, true, true⟩ := by
    simp [searchHandler, hfrom, hto, hoc, hdc, hprov]
  refine ⟨fun hdb => ?_, fun hdb => ?_, fun d p hd hp => ?_⟩
  · have hfb : fallbackPath env q m =
        .fallback
          (sortByPrice (env.stored.filter
            (fallbackMatches q.fromCity q.toCity q.date)))
          (sortByPrice (env.stored.filter
            (fallbackMatches q.fromCity q.toCity q.date))).length
          "database" "Amadeus API unavailable, showing cached results" := by
      simp [fallbackPath, hdb]
    refine ⟨by rw [hmain, hfb], ?_, ?_, ?_⟩
    · rw [hmain]
      show statusOf (fallbackPath env q m) = 200
      rw [hfb]
      rfl
    · unfold sortByPrice
      exact List.sorted_insertionSort _ _
    · unfold sortByPrice
      exact List.perm_insertionSort _ _
  · have hfb : fallbackPath env q m = .serverError "Failed to fetch flights" m := by
      simp [fallbackPath, hdb]
    refine ⟨by rw [hmain, hfb], ?_⟩
    rw [hmain]
    show statusOf (fallbackPath env q m) = 500
    rw [hfb]
    rfl
  · unfold jsParseDateOnly at hp
    cases hdd : jsParseDateDays d with
    | none => rw [hdd] at hp; simp at hp
    | some days =>
      rw [hdd] at hp
      simp only [Option.map_some', Option.some.injEq] at hp
      subst hp
      exact Nat.mul_mod_left days 86400000

/-- Witness for claim C1: with the provider down, a lahore-to-dubai request
over a two-flight store answers 200 from the database, cheapest first. -/
theorem search_provider_failure_fallback_witness :
    searchHandler wEnvProviderDown wQuery =
      ⟨.fallback [wStoredCheap, wStoredExp] 2 "database"
        "Amadeus API unavailable, showing cached results", true, true⟩ := by
  have h := search_provider_failure_fallback wEnvProviderDown wQuery "LHE" "DXB"
    "provider down" rfl rfl (by decide) (by decide) rfl (by decide) (by decide)
  rw [(h.1 rfl).1]
  decide

/-- Claim C3: when the provider call itself succeeds but translating any one
offer of the batch throws, the handler behaves exactly as on a total provider
failure: it answers from the database fallback (no response with the
offending offer merely omitted), identically to an environment whose provider
call failed outright. -/
theorem translate_throw_falls_back (env : SearchEnv) (q : SearchQuery)
    (oc dc : String) (resp : ProviderResponse) (o : Offer) (e : String)
    (hfrom : falsyStr q.fromCity = false)
    (hto : falsyStr q.toCity = false)
    (hoc : getIATACode q.fromCity = some oc)
    (hdc : getIATACode q.toCity = some dc)
    (hprov : env.provider = .ok resp)
    (ho : o ∈ resp.data)
    (he : translateOffer env.js resp.carriers (q.fromCity.getD "") (q.toCity.getD "")
      oc dc o = .error e)
    (hdb : env.dbFails = false) :
    searchHandler env q =
      ⟨.fallback
        (sortByPrice (env.stored.filter
          (fallbackMatches q.fromCity q.toCity q.date)))
        (sortByPrice (env.stored.filter
          (fallbackMatches q.fromCity q.toCity q.date))).length
        "database" "Amadeus API unavailable, showing cached results",
        true, true⟩ ∧
    (∀ m2, searchHandler env q = searchHandler { env with provider := .error m2 } q) := by
  obtain ⟨e2, hall⟩ := translateAll_error_of_mem env.js resp.carriers (q.fromCity.getD "")
    (q.toCity.getD "") oc dc ho he
  have hfb : ∀ m3, fallbackPath env q m3 =
      .fallback
        (sortByPrice (env.stored.filter
          (fallbackMatches q.fromCity q.toCity q.date)))
        (sortByPrice (env.stored.filter
          (fallbackMatches q.fromCity q.toCity q.date))).length
        "database" "Amadeus API unavailable, showing cached results" := by
    intro m3
    simp [fallbackPath, hdb]
  have hmain : searchHandler env q = ⟨fallbackPath env q e2, true, true⟩ := by
    simp [searchHandler, hfrom, hto, hoc, hdc, hprov, hall]
  constructor
  · rw [hmain, hfb e2]
  · intro m2
    have hmain2 : searchHandler { env with provider := .error m2 } q =
        ⟨fallbackPath { env with provider := .error m2 } q m2, true, true⟩ := by
      simp [searchHandler, hfrom, hto, hoc, hdc]
    have hfb2 : fallbackPath { env with provider := .error m2 } q m2 =
        .fallback
          (sortByPrice (env.stored.filter
            (fallbackMatches q.fromCity q.toCity q.date)))
          (sortByPrice (env.stored.filter
            (fallbackMatches q.fromCity q.toCity q.date))).length
          "database" "Amadeus API unavailable, showing cached results" := by
      simp [fallbackPath, hdb]
    rw [hmain, hfb e2, hmain2, hfb2]

/-- Witness for claim C3: a provider batch containing one malformed offer
(empty travelerPricings) makes the concrete request fall back to the
database, cheapest first. -/
theorem translate_throw_falls_back_witness :
    searchHandler wEnvBadOffer wQuery =
      ⟨.fallback [wStoredCheap, wStoredExp] 2 "database"
        "Amadeus API unavailable, showing cached results", true, true⟩ := by
  have h := translate_throw_falls_back wEnvBadOffer wQuery "LHE" "DXB"
    ⟨[wBadOffer], none⟩ wBadOffer "Cannot read travelerPricings[0]"
    rfl rfl (by decide) (by decide) rfl (by decide) rfl rfl
  rw [h.1]
  decide
